import Mathlib

/-!
Verification of the ETL framework (level_06_projects/07_etl_framework.py):
datasets, the DataTransformer operations, and the ETLPipeline.run state
machine, embedded shallowly.  Pandas DataFrames become a column list plus a
list of rows; a filter condition or column expression (a pandas query /
eval string in the source) becomes its evaluation semantics: a function
from the column list to an optional per-row evaluator, `none` modelling the
exception the string may raise when it does not fit the columns.  Python
exceptions become `Except` / `Option` error values; the wall clock readings
taken by `datetime.now()` are passed in as explicit arguments.
-/

set_option autoImplicit false

namespace ETL

/-- A scalar cell value in a data frame; `null` stands for missing data
(NaN / None in pandas). -/
inductive Value where
  | null
  | int (n : Int)
  | str (s : String)
  | bool (b : Bool)
deriving DecidableEq, Repr

/-- Python truthiness of a cell value, as used by
`if options.get(...)` in `clean_data`. -/
def Value.truthy : Value → Bool
  | .null => false
  | .int n => !(n == 0)
  | .str s => !(s == "")
  | .bool b => b

/-- A row, one cell value per column, aligned with the column list. -/
abbrev Row := List Value

/-- A pandas DataFrame: named columns and a list of rows. -/
structure Dataset where
  columns : List String
  rows : List Row
deriving DecidableEq, Repr

/-- `DataFrame.empty`: true when either axis has length zero. -/
def Dataset.isEmpty (d : Dataset) : Bool :=
  d.rows.length == 0 || d.columns.length == 0

/-- A filter condition (a `DataFrame.query` string in the source), given by
its evaluation semantics: from the column list, either a per-row boolean
predicate or `none` when the string does not evaluate over those columns
(pandas raises, e.g. on an unknown column name). -/
abbrev Cond := List String → Option (Row → Bool)

/-- A column expression (a `DataFrame.eval` string in the source), given by
its evaluation semantics: from the column list, either a per-row value or
`none` when evaluation raises. -/
abbrev Expr := List String → Option (Row → Value)

/-- `DataTransformer.filter_data`: `data.query(condition)` inside
`try/except`; on an evaluation error the original dataset is returned
unchanged. -/
def filter_data (data : Dataset) (condition : Cond) : Dataset :=
  match condition data.columns with
  | none => data
  | some p => { data with rows := data.rows.filter p }

/-- `DataTransformer.aggregate_data`: `groupby(...).agg(...)` inside
`try/except`; the group-by semantics is abstracted as an optional
dataset-to-dataset function, `none` modelling the exception, in which case
the original dataset is returned unchanged. -/
def aggregate_data (data : Dataset) (agg : Dataset → Option Dataset) : Dataset :=
  (agg data).getD data

/-- Column assignment `result[col_name] = series` where the series holds
`f r` for each row `r`: replaces the column in place when the name exists,
appends a new column otherwise. -/
def setColumn (d : Dataset) (name : String) (f : Row → Value) : Dataset :=
  if name ∈ d.columns then
    { d with rows := d.rows.map (fun r => r.set (d.columns.findIdx (· == name)) (f r)) }
  else
    { columns := d.columns ++ [name], rows := d.rows.map (fun r => r ++ [f r]) }

/-- The loop of `add_computed_columns`: evaluate each expression over the
accumulated result and assign the column; `none` models the exception that
aborts the loop. -/
def addComputedLoop (result : Dataset) : List (String × Expr) → Option Dataset
  | [] => some result
  | (name, e) :: rest =>
    match e result.columns with
    | none => none
    | some f => addComputedLoop (setColumn result name f) rest

/-- `DataTransformer.add_computed_columns`: runs the whole assignment loop
inside one `try/except`; any failing expression makes the function return
the original dataset unchanged. -/
def add_computed_columns (data : Dataset) (computations : List (String × Expr)) : Dataset :=
  (addComputedLoop data computations).getD data

/-- Options recognised by `clean_data`, one field per `options.get` key of
the source. `fill_na = some v` models the key being present with value
`v`; whether the branch fires additionally depends on the truthiness of
`v`, exactly as the `if options.get(fill_na):` test does. -/
structure CleanOptions where
  remove_duplicates : Bool := false
  fill_na : Option Value := none
  drop_na : Bool := false
  convert_types : List (String × String) := []
deriving Repr

/-- The boolean the source tests with `if options.get(fill_na):` — the
key is present and its value is truthy. -/
def CleanOptions.fillRequested (o : CleanOptions) : Bool :=
  match o.fill_na with
  | some v => v.truthy
  | none => false

/-- `drop_duplicates`: keep the first occurrence of each distinct row,
preserving order. -/
def dropDuplicates (seen : List Row) : List Row → List Row
  | [] => []
  | r :: rest =>
    if r ∈ seen then dropDuplicates seen rest
    else r :: dropDuplicates (r :: seen) rest

/-- `fillna(c)`: replace every null cell by the constant `c`. -/
def fillna (c : Value) (rows : List Row) : List Row :=
  rows.map (fun r => r.map (fun v => if v = .null then c else v))

/-- `dropna()`: keep only the rows with no null cell. -/
def dropna (rows : List Row) : List Row :=
  rows.filter (fun r => r.all (fun v => !(v == .null)))

/-- Coerce one cell of a row at column index `i` through `f`; `none`
models the exception `astype` / `to_datetime` may raise on that cell. -/
def coerceRow (i : Nat) (f : Value → Option Value) (r : Row) : Option Row :=
  match r.get? i with
  | none => some r
  | some v => (f v).map (fun v2 => r.set i v2)

/-- Apply `g` to every row, failing as soon as one row fails. -/
def mapRowsOpt (g : Row → Option Row) : List Row → Option (List Row)
  | [] => some []
  | r :: rest =>
    match g r, mapRowsOpt g rest with
    | some r2, some rs => some (r2 :: rs)
    | _, _ => none

/-- `cleaned[col] = cleaned[col].astype(dtype)` (or `to_datetime`): coerce
every cell of the named column, when the column exists; a cell failure is
the exception that aborts the whole `clean_data` call. -/
def convertColumn (d : Dataset) (col : String) (f : Value → Option Value) : Option Dataset :=
  if col ∈ d.columns then
    (mapRowsOpt (coerceRow (d.columns.findIdx (· == col)) f) d.rows).map
      (fun rs => { d with rows := rs })
  else some d

/-- The `convert_types` loop of `clean_data`, parameterised by the
coercion semantics of each dtype name. -/
def convertTypes (coerce : String → Value → Option Value) (d : Dataset) :
    List (String × String) → Option Dataset
  | [] => some d
  | (col, dtype) :: rest =>
    match convertColumn d col (coerce dtype) with
    | none => none
    | some d2 => convertTypes coerce d2 rest

/-- The duplicate-removal and null-handling stages of `clean_data`:
duplicates, then `fill_na` (only when its value is truthy) ELSE `drop_na`
— the source uses `elif`. These stages cannot raise. -/
def preConvert (data : Dataset) (o : CleanOptions) : Dataset :=
  let c1 := if o.remove_duplicates then { data with rows := dropDuplicates [] data.rows } else data
  if o.fillRequested then { c1 with rows := fillna (o.fill_na.getD .null) c1.rows }
  else if o.drop_na then { c1 with rows := dropna c1.rows }
  else c1

/-- The body of `DataTransformer.clean_data` up to its `try/except`: the
non-raising stages, then type conversion; `none` is the exception caught
by the `except` branch. -/
def cleanBody (coerce : String → Value → Option Value) (data : Dataset)
    (o : CleanOptions) : Option Dataset :=
  convertTypes coerce (preConvert data o) o.convert_types

/-- `DataTransformer.clean_data`: the body inside `try/except`, returning
the original dataset on any exception. -/
def clean_data (coerce : String → Value → Option Value) (data : Dataset)
    (o : CleanOptions) : Dataset :=
  (cleanBody coerce data o).getD data

/-- The spec reading of the `convert_types` option: a failing coercion is
a no-op on the affected column only, and the loop continues. -/
def convertSpecList (coerce : String → Value → Option Value) (d : Dataset) :
    List (String × String) → Dataset
  | [] => d
  | (col, dtype) :: rest =>
    convertSpecList coerce ((convertColumn d col (coerce dtype)).getD d) rest

/-- Modelled from the spec for comparison with `clean_data` (the source is
the authority): every requested option applied independently — duplicates,
then null filling whenever a constant is supplied, then null-row dropping
whenever requested, then type coercion with a failing column a no-op on
that column only. -/
def clean_spec (coerce : String → Value → Option Value) (data : Dataset)
    (o : CleanOptions) : Dataset :=
  let c1 := if o.remove_duplicates then { data with rows := dropDuplicates [] data.rows } else data
  let c2 :=
    match o.fill_na with
    | some v => { c1 with rows := fillna v c1.rows }
    | none => c1
  let c3 := if o.drop_na then { c2 with rows := dropna c2.rows } else c2
  convertSpecList coerce c3 o.convert_types

/-- The precedence `clean_data` actually gives the options, relative to
the independent spec reading: the null-fill applies only when its constant
is truthy, and when it applies it suppresses `drop_na`. -/
def adjustOptions (o : CleanOptions) : CleanOptions :=
  { o with
    fill_na := if o.fillRequested then o.fill_na else none,
    drop_na := o.drop_na && !o.fillRequested }

/-- An identity coercion semantics (total), for concrete instances. -/
def idCoerce : String → Value → Option Value := fun _ v => some v

/-- A coercion semantics that raises on every cell, for concrete
instances of a failing `astype` / `to_datetime`. -/
def noCoerce : String → Value → Option Value := fun _ _ => none

/-- A constant column expression, always valid. -/
def constExpr (v : Value) : Expr := fun _ => some (fun _ => v)

/-- A column expression whose evaluation always raises. -/
def badExpr : Expr := fun _ => none

/-- Pipeline status strings of the metrics record. -/
inductive Status where
  | PENDING
  | RUNNING
  | SUCCESS
  | WARNING
  | FAILED
deriving DecidableEq, Repr

/-- `self.metrics` of an ETLPipeline; timestamps are clock readings
passed in explicitly (`datetime.now()` in the source). -/
structure Metrics where
  start_time : Option Nat
  end_time : Option Nat
  rows_extracted : Nat
  rows_loaded : Nat
  status : Status
deriving DecidableEq, Repr

/-- Keyword arguments (`extract_params` / `load_params`). -/
abbrev Params := List (String × Value)

/-- A data connector, reduced to the two operations `run` calls; `.error`
models an exception raised by the concrete backend (including the
NotImplementedError of the abstract base class). -/
structure Connector where
  extract : Params → Except Unit Dataset
  load : Dataset → Params → Except Unit Bool

/-- One entry of `self.steps`: an injected transform callable (which may
raise), a filter condition, or an aggregation (its groupby semantics
abstracted, `none` the exception `aggregate_data` recovers from). -/
inductive Step where
  | transform (f : Dataset → Except Unit Dataset)
  | filter (condition : Cond)
  | aggregate (agg : Dataset → Option Dataset)

/-- `ETLPipeline`: name, optional source and target connectors, the step
list, and the metrics record. -/
structure Pipeline where
  name : String
  source_connector : Option Connector
  target_connector : Option Connector
  steps : List Step
  metrics : Metrics

/-- Dispatch of one step of the transform loop of `ETLPipeline.run`. -/
def runStep (data : Dataset) : Step → Except Unit Dataset
  | .transform f => f data
  | .filter c => .ok (filter_data data c)
  | .aggregate g => .ok (aggregate_data data g)

/-- The transform loop of `ETLPipeline.run`, in list order. -/
def runSteps (data : Dataset) : List Step → Except Unit Dataset
  | [] => .ok data
  | s :: rest =>
    match runStep data s with
    | .error e => .error e
    | .ok d2 => runSteps d2 rest

/-- The try block of `ETLPipeline.run`, threading the metrics record the
way the source mutates `self.metrics`; `.error m` is an exception
escaping the block with the metrics as mutated so far (the ValueError for
a missing source, or an exception from extract, a transform step, or
load). `.ok` carries the boolean return value and the metrics. -/
def runBody (p : Pipeline) (extract_params load_params : Params) (m0 : Metrics) :
    Except Metrics (Bool × Metrics) :=
  match p.source_connector with
  | none => .error m0
  | some src =>
    match src.extract extract_params with
    | .error _ => .error m0
    | .ok data =>
      if data.isEmpty then .ok (false, { m0 with status := Status.WARNING })
      else
        let m1 := { m0 with rows_extracted := data.rows.length }
        match runSteps data p.steps with
        | .error _ => .error m1
        | .ok data2 =>
          match p.target_connector with
          | none => .ok (true, m1)
          | some tgt =>
            match tgt.load data2 load_params with
            | .error _ => .error m1
            | .ok true =>
              .ok (true, { m1 with rows_loaded := data2.rows.length, status := Status.SUCCESS })
            | .ok false => .ok (false, { m1 with status := Status.FAILED })

/-- `ETLPipeline.run`. `t0` and `t1` are the two `datetime.now()`
readings (start of the call and the finally block). The except branch
turns an escaping exception into a false return with status FAILED; the
finally branch records the end timestamp on every path; only the metrics
field of the pipeline is reassigned. -/
def run (p : Pipeline) (extract_params load_params : Params) (t0 t1 : Nat) :
    Bool × Pipeline :=
  let m0 := { p.metrics with start_time := some t0, status := Status.RUNNING }
  let res : Bool × Metrics :=
    match runBody p extract_params load_params m0 with
    | .ok bm => bm
    | .error m => (false, { m with status := Status.FAILED })
  (res.1, { p with metrics := { res.2 with end_time := some t1 } })

/-- The metrics record `ETLPipeline.__init__` installs. -/
def initMetrics : Metrics :=
  { start_time := none, end_time := none, rows_extracted := 0, rows_loaded := 0,
    status := Status.PENDING }

/-- `ETLPipeline.__init__`. -/
def mkPipeline (n : String) : Pipeline :=
  { name := n, source_connector := none, target_connector := none, steps := [],
    metrics := initMetrics }

/-- `ETLPipeline.set_source` (the fluent builder reassigns the field and
returns self). -/
def set_source (p : Pipeline) (c : Connector) : Pipeline :=
  { p with source_connector := some c }

/-- `ETLPipeline.set_target`. -/
def set_target (p : Pipeline) (c : Connector) : Pipeline :=
  { p with target_connector := some c }

/-- A connector whose extract always yields one row. -/
def srcOne : Connector :=
  { extract := fun _ => .ok ⟨["a"], [[Value.int 1]]⟩, load := fun _ _ => .ok true }

/-- A connector whose extract always yields zero rows. -/
def srcEmpty : Connector :=
  { extract := fun _ => .ok ⟨["a"], []⟩, load := fun _ _ => .ok true }

/-- A connector standing for a query whose result depends on the extract
parameters: one row when any parameter is given, zero rows otherwise. -/
def srcParam : Connector :=
  { extract := fun ep =>
      if ep.isEmpty then .ok ⟨["a"], []⟩ else .ok ⟨["a"], [[Value.int 1]]⟩,
    load := fun _ _ => .ok true }

/-- C6: filter_data keeps the column set identical and never increases the
row count, and behaves as claimed on both branches: when the condition
evaluates to a predicate the rows satisfying it are kept, and when
evaluation fails the original dataset is returned unchanged. -/
theorem etl_C6 (d : Dataset) (c : Cond) :
    (filter_data d c).columns = d.columns ∧
    (filter_data d c).rows.length ≤ d.rows.length ∧
    (∀ p, c d.columns = some p → (filter_data d c).rows = d.rows.filter p) ∧
    (c d.columns = none → filter_data d c = d) := by
  refine ⟨?_, ?_, ?_, ?_⟩ <;> unfold filter_data
  · cases h : c d.columns <;> simp
  · cases h : c d.columns with
    | none => simp
    | some p => simpa using List.length_filter_le p d.rows
  · intro p hp
    simp [hp]
  · intro hp
    simp [hp]

/-- C6 witness: the column-set and row-count facts and both branch
behaviours, at a concrete dataset, a condition keeping rows whose first
cell is positive, and a condition that fails to evaluate. -/
theorem etl_C6_witness :
    (filter_data ⟨["a"], [[Value.int 1], [Value.int (-2)]]⟩
        (fun _ => some (fun r => match r with | .int n :: _ => decide (0 < n) | _ => false))).rows
      = [[Value.int 1]] ∧
    filter_data ⟨["a"], [[Value.int 1], [Value.int (-2)]]⟩ (fun _ => none)
      = ⟨["a"], [[Value.int 1], [Value.int (-2)]]⟩ := by
  refine ⟨?_, ?_⟩
  · have h := (etl_C6 ⟨["a"], [[Value.int 1], [Value.int (-2)]]⟩
      (fun _ => some (fun r => match r with | .int n :: _ => decide (0 < n) | _ => false))).2.2.1
      (fun r => match r with | .int n :: _ => decide (0 < n) | _ => false) rfl
    rw [h]
    decide
  · exact (etl_C6 ⟨["a"], [[Value.int 1], [Value.int (-2)]]⟩ (fun _ => none)).2.2.2 rfl

/-- C7: applying the same filter twice is idempotent. -/
theorem etl_C7 (d : Dataset) (c : Cond) :
    filter_data (filter_data d c) c = filter_data d c := by
  cases h : c d.columns with
  | none => simp [filter_data, h]
  | some p =>
    have h1 : filter_data d c = ⟨d.columns, d.rows.filter p⟩ := by
      simp [filter_data, h]
    rw [h1]
    simp [filter_data, h, List.filter_filter]

/-- Assigning a column makes its name present. -/
theorem mem_setColumn_self (d : Dataset) (n : String) (f : Row → Value) :
    n ∈ (setColumn d n f).columns := by
  by_cases h : n ∈ d.columns <;> simp [setColumn, h]

/-- Assigning a column keeps every existing column name present. -/
theorem mem_setColumn_of_mem (d : Dataset) (n x : String) (f : Row → Value)
    (hx : x ∈ d.columns) : x ∈ (setColumn d n f).columns := by
  by_cases h : n ∈ d.columns <;> simp [setColumn, h, hx]

/-- The assignment loop of add_computed_columns keeps every existing
column name present when it succeeds. -/
theorem addComputedLoop_mem (comps : List (String × Expr)) :
    ∀ d r, addComputedLoop d comps = some r → ∀ x ∈ d.columns, x ∈ r.columns := by
  induction comps with
  | nil =>
    intro d r h x hx
    simp only [addComputedLoop, Option.some.injEq] at h
    exact h ▸ hx
  | cons hd rest ih =>
    intro d r h x hx
    obtain ⟨name, e⟩ := hd
    cases he : e d.columns with
    | none => simp [addComputedLoop, he] at h
    | some f =>
      simp only [addComputedLoop, he] at h
      exact ih _ r h x (mem_setColumn_of_mem d name x f hx)

/-- When the assignment loop succeeds, every computed column name is
present in the result. -/
theorem addComputedLoop_names (comps : List (String × Expr)) :
    ∀ d r, addComputedLoop d comps = some r → ∀ ne ∈ comps, ne.1 ∈ r.columns := by
  induction comps with
  | nil =>
    intro d r _ ne hne
    simp at hne
  | cons hd rest ih =>
    intro d r h ne hne
    obtain ⟨name, e⟩ := hd
    cases he : e d.columns with
    | none => simp [addComputedLoop, he] at h
    | some f =>
      simp only [addComputedLoop, he] at h
      rcases List.mem_cons.mp hne with rfl | hne
      · exact addComputedLoop_mem rest _ r h name (mem_setColumn_self d name f)
      · exact ih _ r h ne hne

/-- C8 counterexample: a one-column dataset with one valid computed column
(b) followed by one invalid one (c): the claim says column b is still
added; the code returns the original dataset, so b is absent. -/
theorem etl_C8_cex :
    ((constExpr (Value.int 2)) (Dataset.mk ["a"] [[Value.int 1]]).columns).isSome = true ∧
    add_computed_columns ⟨["a"], [[Value.int 1]]⟩
        [("b", constExpr (Value.int 2)), ("c", badExpr)] = ⟨["a"], [[Value.int 1]]⟩ ∧
    "b" ∉ (add_computed_columns ⟨["a"], [[Value.int 1]]⟩
        [("b", constExpr (Value.int 2)), ("c", badExpr)]).columns := by
  refine ⟨rfl, ?_, ?_⟩ <;> decide

/-- C8 amended: add_computed_columns is all-or-nothing: when some
expression in the list fails to evaluate, the original dataset is returned
with no column added at all; when every expression evaluates, the result
of the assignment loop is returned and every computed column name is
present in it. -/
theorem etl_C8_amended (d : Dataset) (comps : List (String × Expr)) :
    (addComputedLoop d comps = none → add_computed_columns d comps = d) ∧
    (∀ r, addComputedLoop d comps = some r →
      add_computed_columns d comps = r ∧ ∀ ne ∈ comps, ne.1 ∈ r.columns) := by
  constructor
  · intro h
    simp [add_computed_columns, h]
  · intro r h
    exact ⟨by simp [add_computed_columns, h], addComputedLoop_names comps d r h⟩

/-- C8 amended witness: at the concrete inputs of the counterexample, the
failing list leaves the dataset unchanged, and the same list with the
failing tail removed does add column b. -/
theorem etl_C8_amended_witness :
    add_computed_columns ⟨["a"], [[Value.int 1]]⟩
        [("b", constExpr (Value.int 2)), ("c", badExpr)] = ⟨["a"], [[Value.int 1]]⟩ ∧
    add_computed_columns ⟨["a"], [[Value.int 1]]⟩ [("b", constExpr (Value.int 2))]
        = ⟨["a", "b"], [[Value.int 1, Value.int 2]]⟩ ∧
    "b" ∈ (Dataset.mk ["a", "b"] [[Value.int 1, Value.int 2]]).columns := by
  refine ⟨(etl_C8_amended _ _).1 (by decide), ?_, by decide⟩
  exact ((etl_C8_amended ⟨["a"], [[Value.int 1]]⟩ [("b", constExpr (Value.int 2))]).2
    ⟨["a", "b"], [[Value.int 1, Value.int 2]]⟩ (by decide)).1

/-- When the code conversion loop succeeds, it computes exactly the spec
reading of convert_types. -/
theorem convertTypes_some_spec (coerce : String → Value → Option Value) :
    ∀ (l : List (String × String)) (d r : Dataset),
      convertTypes coerce d l = some r → convertSpecList coerce d l = r := by
  intro l
  induction l with
  | nil =>
    intro d r h
    simp only [convertTypes, Option.some.injEq] at h
    simpa [convertSpecList] using h
  | cons pr rest ih =>
    intro d r h
    obtain ⟨col, dtype⟩ := pr
    cases hcc : convertColumn d col (coerce dtype) with
    | none => simp [convertTypes, hcc] at h
    | some d2 =>
      simp only [convertTypes, hcc] at h
      simpa [convertSpecList, hcc] using ih d2 r h

/-- The spec reading of the precedence-adjusted options runs the same
duplicate-removal and null-handling stages as the code, followed by the
per-column-tolerant conversion. -/
theorem clean_spec_adjust (coerce : String → Value → Option Value) (d : Dataset)
    (o : CleanOptions) :
    clean_spec coerce d (adjustOptions o) =
      convertSpecList coerce (preConvert d o) o.convert_types := by
  unfold clean_spec preConvert adjustOptions
  cases hf : o.fill_na with
  | none =>
    have hreq : o.fillRequested = false := by
      simp [CleanOptions.fillRequested, hf]
    by_cases hdup : o.remove_duplicates <;> by_cases hdrop : o.drop_na <;>
      simp [hreq, hf, hdup, hdrop]
  | some v =>
    by_cases hv : v.truthy
    · have hreq : o.fillRequested = true := by
        simp [CleanOptions.fillRequested, hf, hv]
      by_cases hdup : o.remove_duplicates <;>
        simp [hreq, hf, hv, hdup]
    · have hreq : o.fillRequested = false := by
        simp [CleanOptions.fillRequested, hf, hv]
      by_cases hdup : o.remove_duplicates <;> by_cases hdrop : o.drop_na <;>
        simp [hreq, hf, hv, hdup, hdrop]

/-- C9 counterexample, two independent violations of option independence.
First: requesting a null fill with the constant integer 0 (falsy) on a
dataset with one null cell: the spec reading of independent options fills
the null, the code skips the fill entirely. Second: requesting duplicate
removal together with a type coercion that fails: the spec reading keeps
the dedupe and treats the failed coercion as a per-column no-op, while the
code aborts the whole call and returns the original duplicated dataset. -/
theorem etl_C9_cex :
    (clean_data idCoerce ⟨["a"], [[Value.null]]⟩ { fill_na := some (Value.int 0) } =
        ⟨["a"], [[Value.null]]⟩ ∧
      clean_spec idCoerce ⟨["a"], [[Value.null]]⟩ { fill_na := some (Value.int 0) } =
        ⟨["a"], [[Value.int 0]]⟩) ∧
    (clean_data noCoerce ⟨["a"], [[Value.int 1], [Value.int 1]]⟩
        { remove_duplicates := true, convert_types := [("a", "datetime")] } =
        ⟨["a"], [[Value.int 1], [Value.int 1]]⟩ ∧
      clean_spec noCoerce ⟨["a"], [[Value.int 1], [Value.int 1]]⟩
        { remove_duplicates := true, convert_types := [("a", "datetime")] } =
        ⟨["a"], [[Value.int 1]]⟩) := by
  refine ⟨⟨?_, ?_⟩, ?_, ?_⟩ <;> decide

/-- C9 amended: the options of clean_data deviate from independent
composition in exactly two ways. The null-fill applies only when its
constant is truthy and, when it applies, drop-rows-with-nulls is skipped:
whenever the requested type coercions succeed, clean_data equals the
independent spec reading of the options adjusted by that precedence. And
a failing type coercion aborts the whole call: clean_data then returns the
original dataset unchanged, undoing every other requested option, instead
of treating the failure as a no-op on the affected column. -/
theorem etl_C9_amended (coerce : String → Value → Option Value) (d : Dataset)
    (o : CleanOptions) :
    (∀ r, convertTypes coerce (preConvert d o) o.convert_types = some r →
      clean_data coerce d o = clean_spec coerce d (adjustOptions o)) ∧
    (convertTypes coerce (preConvert d o) o.convert_types = none →
      clean_data coerce d o = d) := by
  constructor
  · intro r hr
    rw [clean_spec_adjust coerce d o,
      convertTypes_some_spec coerce o.convert_types (preConvert d o) r hr]
    simp [clean_data, cleanBody, hr]
  · intro h
    simp [clean_data, cleanBody, h]

/-- C9 amended witness: both regimes at concrete inputs. A falsy fill
constant plus drop_na, with no coercion requested: the code equals the
spec reading of the adjusted options. A failing coercion plus duplicate
removal: the code returns the original duplicated dataset unchanged. -/
theorem etl_C9_amended_witness :
    (clean_data idCoerce ⟨["a"], [[Value.null]]⟩
        { fill_na := some (Value.int 0), drop_na := true } =
      clean_spec idCoerce ⟨["a"], [[Value.null]]⟩
        (adjustOptions { fill_na := some (Value.int 0), drop_na := true })) ∧
    clean_data noCoerce ⟨["a"], [[Value.int 1], [Value.int 1]]⟩
        { remove_duplicates := true, convert_types := [("a", "datetime")] } =
      ⟨["a"], [[Value.int 1], [Value.int 1]]⟩ := by
  constructor
  · exact (etl_C9_amended idCoerce ⟨["a"], [[Value.null]]⟩
      { fill_na := some (Value.int 0), drop_na := true }).1
      ⟨["a"], ([] : List Row)⟩ (by decide)
  · exact (etl_C9_amended noCoerce ⟨["a"], [[Value.int 1], [Value.int 1]]⟩
      { remove_duplicates := true, convert_types := [("a", "datetime")] }).2 (by decide)

/-- C1 counterexample: a fresh pipeline with a one-row source and no
target: run returns true but the final status is RUNNING, not SUCCESS. -/
theorem etl_C1_cex :
    (run (set_source (mkPipeline "p") srcOne) [] [] 0 1).1 = true ∧
    ((run (set_source (mkPipeline "p") srcOne) [] [] 0 1).2).metrics.status
      ≠ Status.SUCCESS := by
  constructor <;> decide

/-- C1 amended: with a source and no target, a non-empty extract, and the
transform steps completing, run returns true with the load skipped and
rows_loaded left at its prior value (0 on a fresh pipeline), but the final
metrics status is RUNNING — the code never transitions to SUCCESS on this
path. -/
theorem etl_C1_amended (p : Pipeline) (src : Connector) (ep lp : Params)
    (t0 t1 : Nat) (d d2 : Dataset)
    (hsrc : p.source_connector = some src) (htgt : p.target_connector = none)
    (hex : src.extract ep = .ok d) (hne : d.isEmpty = false)
    (hsteps : runSteps d p.steps = .ok d2) :
    run p ep lp t0 t1 =
      (true, { p with metrics :=
        { p.metrics with
            start_time := some t0, end_time := some t1,
            rows_extracted := d.rows.length, status := Status.RUNNING } }) := by
  simp [run, runBody, hsrc, htgt, hex, hne, hsteps]

/-- C1 amended witness: a fresh pipeline with a one-row source and no
target returns true with status RUNNING, rows_extracted 1, rows_loaded
0. -/
theorem etl_C1_amended_witness :
    run (set_source (mkPipeline "p") srcOne) [] [] 0 1 =
      (true, { set_source (mkPipeline "p") srcOne with metrics :=
        { initMetrics with
            start_time := some 0, end_time := some 1,
            rows_extracted := 1, status := Status.RUNNING } }) :=
  etl_C1_amended (set_source (mkPipeline "p") srcOne) srcOne [] [] 0 1
    ⟨["a"], [[Value.int 1]]⟩ ⟨["a"], [[Value.int 1]]⟩ rfl rfl rfl rfl rfl

/-- C2 counterexample: first run the pipeline with parameters under which
extract yields one row (setting rows_extracted to 1), then run it with an
empty extract: the second run returns false with status WARNING, but
rows_extracted stays 1 — the code never resets it to 0. -/
theorem etl_C2_cex :
    (run ((run (set_source (mkPipeline "p") srcParam) [("q", Value.int 1)] [] 0 1).2)
        [] [] 2 3).1 = false ∧
    ((run ((run (set_source (mkPipeline "p") srcParam) [("q", Value.int 1)] [] 0 1).2)
        [] [] 2 3).2).metrics.status = Status.WARNING ∧
    ((run ((run (set_source (mkPipeline "p") srcParam) [("q", Value.int 1)] [] 0 1).2)
        [] [] 2 3).2).metrics.rows_extracted ≠ 0 := by
  refine ⟨?_, ?_, ?_⟩ <;> decide

/-- C2 amended: when extract returns zero rows, run returns false with
status WARNING and the end timestamp recorded, consulting neither the
steps nor the target (the result metrics are the same for every step list
and target), but rows_extracted and rows_loaded keep their prior values (0
only on a fresh pipeline) — the code does not set rows_extracted to 0. -/
theorem etl_C2_amended (p : Pipeline) (src : Connector) (ep lp : Params)
    (t0 t1 : Nat) (d : Dataset)
    (hsrc : p.source_connector = some src)
    (hex : src.extract ep = .ok d) (hempty : d.isEmpty = true) :
    run p ep lp t0 t1 =
      (false, { p with metrics :=
        { p.metrics with
            start_time := some t0, end_time := some t1,
            status := Status.WARNING } }) := by
  simp [run, runBody, hsrc, hex, hempty]

/-- C2 amended witness: a fresh pipeline with an empty-extract source:
false, WARNING, counters 0, end timestamp recorded. -/
theorem etl_C2_amended_witness :
    run (set_source (mkPipeline "p") srcEmpty) [] [] 0 1 =
      (false, { set_source (mkPipeline "p") srcEmpty with metrics :=
        { initMetrics with
            start_time := some 0, end_time := some 1,
            status := Status.WARNING } }) :=
  etl_C2_amended (set_source (mkPipeline "p") srcEmpty) srcEmpty [] [] 0 1
    ⟨["a"], []⟩ rfl rfl rfl

/-- C3: with no source connector set, run returns false, the final metrics
status is FAILED, and the end timestamp is recorded. -/
theorem etl_C3 (p : Pipeline) (ep lp : Params) (t0 t1 : Nat)
    (hsrc : p.source_connector = none) :
    run p ep lp t0 t1 =
      (false, { p with metrics :=
        { p.metrics with
            start_time := some t0, end_time := some t1,
            status := Status.FAILED } }) := by
  simp [run, runBody, hsrc]

/-- C3 witness: a fresh pipeline with no source. -/
theorem etl_C3_witness :
    run (mkPipeline "p") [] [] 0 1 =
      (false, { mkPipeline "p" with metrics :=
        { initMetrics with
            start_time := some 0, end_time := some 1,
            status := Status.FAILED } }) :=
  etl_C3 (mkPipeline "p") [] [] 0 1 rfl

/-- C4: the metrics end timestamp is recorded on every exit path of run:
whatever the pipeline, parameters and outcome, the returned pipeline
carries the finally-block clock reading. -/
theorem etl_C4 (p : Pipeline) (ep lp : Params) (t0 t1 : Nat) :
    ((run p ep lp t0 t1).2).metrics.end_time = some t1 := rfl

/-- C5: run never propagates an exception: whenever the try body raises
(escapes with an error and the metrics mutated so far), run still returns
a value — false, with status FAILED and the end timestamp recorded. -/
theorem etl_C5 (p : Pipeline) (ep lp : Params) (t0 t1 : Nat) (m : Metrics)
    (h : runBody p ep lp
      { p.metrics with start_time := some t0, status := Status.RUNNING } = .error m) :
    run p ep lp t0 t1 =
      (false, { p with metrics :=
        { m with status := Status.FAILED, end_time := some t1 } }) := by
  simp [run, h]

/-- C5 witness: the raising path of a fresh source-less pipeline (the
ValueError of the missing source) is converted into a false return with
status FAILED. -/
theorem etl_C5_witness :
    run (mkPipeline "q") [] [] 0 1 =
      (false, { mkPipeline "q" with metrics :=
        { initMetrics with
            start_time := some 0, end_time := some 1,
            status := Status.FAILED } }) :=
  etl_C5 (mkPipeline "q") [] [] 0 1
    { initMetrics with start_time := some 0, status := Status.RUNNING } rfl

/-- C10: run mutates only the metrics record of the pipeline: the name,
the two connector references and the step list of the returned pipeline
are those of the input. -/
theorem etl_C10 (p : Pipeline) (ep lp : Params) (t0 t1 : Nat) :
    ((run p ep lp t0 t1).2).name = p.name ∧
    ((run p ep lp t0 t1).2).source_connector = p.source_connector ∧
    ((run p ep lp t0 t1).2).target_connector = p.target_connector ∧
    ((run p ep lp t0 t1).2).steps = p.steps :=
  ⟨rfl, rfl, rfl, rfl⟩

end ETL
